import Mathlib

/-!
Verification development for the Acme data-room frontend.

The repository is a React/TypeScript single-page application: an API client
(`src/lib/api.ts`), a root application component (`src/App.tsx`), a Google
Drive file-picker modal (`src/components/DriveFilePicker.tsx`), a file card
(`src/components/FileCard.tsx`) and formatting utilities (`src/lib/utils.ts`).

The shallow embedding below models:
  - JSON values and HTTP responses; the browser `fetch` as consumption of a
    scripted list of responses together with a log of the requests performed
    (an exhausted script models a network-level rejection of `fetch`);
  - each API-client function as a state-passing function over that network
    state, returning `Except String` for a thrown/rejected promise;
  - each UI handler as a function from component state (plus the network
    state or a typed server oracle) to the new state, a list of performed
    user-visible effects (console logs, alerts, callbacks, redirects), and
    the remaining network state.  A handler whose body is not wrapped in
    `try`/`catch` is `Except`-valued: an `Except.error` result is a rejection
    escaping the handler uncaught.

Stateful React `useState` setters are modelled by explicit record updates on
a state structure holding exactly the `useState` fields of the component.
-/

namespace Dataroom

/-- JSON values, as produced by `res.json()`.  Numbers are modelled as
integers (every numeric value occurring in this program is integral). -/
inductive Json where
  | null : Json
  | bool : Bool → Json
  | num : Int → Json
  | str : String → Json
  | arr : List Json → Json
  | obj : List (String × Json) → Json

/-- JavaScript truthiness of a JSON value (`if (x)`, `x ? a : b`, `x || y`). -/
def jsTruthy : Json → Bool
  | .null => false
  | .bool b => b
  | .num n => n != 0
  | .str s => s != ""
  | .arr _ => true
  | .obj _ => true

/-- Property access `j[k]`; a missing property (or access on a non-object)
is `undefined`, which we conflate with `null`. -/
def jsonField (j : Json) (k : String) : Json :=
  match j with
  | .obj fields => ((fields.lookup k).getD .null)
  | _ => .null

mutual

/-- JavaScript `String(x)`, used when a JSON value flows into a string
position (an `Error` message, `window.location.href`). -/
def jsToString : Json → String
  | .null => "null"
  | .bool b => if b then "true" else "false"
  | .num n => toString n
  | .str s => s
  | .arr xs => String.intercalate "," (jsToStringList xs)
  | .obj _ => "[object Object]"

/-- `String` applied element-wise to a list of JSON values. -/
def jsToStringList : List Json → List String
  | [] => []
  | j :: js => jsToString j :: jsToStringList js

end

/-- An HTTP response: a status code and a body.  `body = none` models a body
that `res.json()` fails to parse. -/
structure HttpResponse where
  status : Nat
  body : Option Json

/-- `res.ok`: status in the 2xx range (the fetch API uses [200, 300)). -/
def HttpResponse.ok (r : HttpResponse) : Bool :=
  decide (200 ≤ r.status) && decide (r.status < 300)

/-- An HTTP request as issued by the API client.  Query-string parameters
(`URLSearchParams`, `encodeURIComponent`) are modelled structurally as
key/value pairs rather than as an encoded string. -/
structure Request where
  method : String
  path : String
  params : List (String × String)
  body : Option Json

/-- The network, seen by one browser session: a script of responses to
successive `fetch` calls, and a log of the requests performed so far. -/
structure NetState where
  responses : List HttpResponse
  log : List Request

/-- One `fetch`: consume the next scripted response, recording the request.
An exhausted script is a network-level rejection (`fetch` rejecting its
promise); the attempted request is still logged. -/
def netFetch (req : Request) (s : NetState) : Except String HttpResponse × NetState :=
  match s.responses with
  | [] => (.error "NetworkError", { responses := [], log := s.log ++ [req] })
  | r :: rest => (.ok r, { responses := rest, log := s.log ++ [req] })

/-- `res.json()`: the parsed body, or a rejection when the body is not JSON. -/
def resJson (r : HttpResponse) : Except String Json :=
  match r.body with
  | some j => .ok j
  | none => .error "SyntaxError: invalid JSON"

/-! ## Data model (`src/lib/api.ts` type declarations) -/

/-- A file stored in the data room (interface `DataroomFile`). -/
structure DataroomFile where
  id : Int
  name : String
  mime_type : Option String
  size : Option Int
  google_drive_id : String
  created_at : String
deriving DecidableEq

/-- A file from Google Drive before import (interface `DriveFile`).
Optional fields are `Option`; `size` comes as a string from the API. -/
structure DriveFile where
  id : String
  name : String
  mimeType : String
  size : Option String
  modifiedTime : Option String
  iconLink : Option String
  thumbnailLink : Option String
deriving DecidableEq

/-- Response of the Drive list endpoint (interface `DriveListResponse`). -/
structure DriveListResponse where
  files : List DriveFile
  nextPageToken : Option String
deriving DecidableEq

/-! ## JavaScript numeric parsing (`parseInt`) -/

/-- Decimal value of a digit string. -/
def digitsValue (ds : List Char) : Nat :=
  ds.foldl (fun a c => a * 10 + (c.toNat - 48)) 0

/-- Leading digits of a character list, and their value; `none` when there is
no leading digit (JavaScript `NaN`). -/
def leadingNat (l : List Char) : Option Nat :=
  let ds := l.takeWhile Char.isDigit
  if ds.isEmpty then none else some (digitsValue ds)

/-- JavaScript `parseInt(s)` in base 10: trims whitespace, accepts an
optional sign, parses the longest leading digit run; `none` is `NaN`. -/
def parseIntJs (s : String) : Option Int :=
  match s.trim.toList with
  | '-' :: rest => (leadingNat rest).map (fun n => -(n : Int))
  | '+' :: rest => (leadingNat rest).map (fun n => (n : Int))
  | cs => (leadingNat cs).map (fun n => (n : Int))

/-! ## API client (`src/lib/api.ts`) -/

def API_BASE : String := "/api"

/-- `api.getAuthStatus`: `GET /api/auth/status`, returns `res.json()` with no
status check. -/
def getAuthStatus (s : NetState) : Except String Json × NetState :=
  match netFetch ⟨"GET", API_BASE ++ "/auth/status", [], none⟩ s with
  | (.ok res, s) => (resJson res, s)
  | (.error e, s) => (.error e, s)

/-- `api.getAuthUrl`: `GET /api/auth/login`, returns `res.json()` with no
status check. -/
def getAuthUrl (s : NetState) : Except String Json × NetState :=
  match netFetch ⟨"GET", API_BASE ++ "/auth/login", [], none⟩ s with
  | (.ok res, s) => (resJson res, s)
  | (.error e, s) => (.error e, s)

/-- `api.logout`: `POST /api/auth/logout`; the response is awaited but neither
its status nor its body is inspected. -/
def logout (s : NetState) : Except String Unit × NetState :=
  match netFetch ⟨"POST", API_BASE ++ "/auth/logout", [], none⟩ s with
  | (.ok _, s) => (.ok (), s)
  | (.error e, s) => (.error e, s)

/-- Query parameters built by `listDriveFiles`: `pageToken` and `query` are
each set only when truthy (present and non-empty). -/
def driveParams (pageToken? query? : Option String) : List (String × String) :=
  (match pageToken? with
   | some t => if t = "" then [] else [("pageToken", t)]
   | none => []) ++
  (match query? with
   | some q => if q = "" then [] else [("query", q)]
   | none => [])

/-- `api.listDriveFiles`: `GET /api/drive/files?...`; throws a fixed message
on non-2xx, otherwise returns `res.json()`. -/
def listDriveFiles (pageToken? query? : Option String) (s : NetState) :
    Except String Json × NetState :=
  match netFetch ⟨"GET", API_BASE ++ "/drive/files", driveParams pageToken? query?, none⟩ s with
  | (.ok res, s) =>
      if res.ok then (resJson res, s) else (.error "Failed to fetch drive files", s)
  | (.error e, s) => (.error e, s)

/-- The JSON body sent by `importFile`:
`{file_id, name, mime_type, size: file.size ? parseInt(file.size) : null}`.
`JSON.stringify` serialises `NaN` as `null`. -/
def importBody (f : DriveFile) : Json :=
  .obj [("file_id", .str f.id), ("name", .str f.name), ("mime_type", .str f.mimeType),
        ("size",
          match f.size with
          | some sz =>
              if sz = "" then .null
              else match parseIntJs sz with
                   | some n => .num n
                   | none => .null
          | none => .null)]

/-- The request issued by `importFile`. -/
def importRequest (f : DriveFile) : Request :=
  ⟨"POST", API_BASE ++ "/drive/import", [], some (importBody f)⟩

/-- `api.importFile`: `POST /api/drive/import`; on non-2xx it parses the error
body and throws `error.error` or the fixed fallback message; on 2xx it returns
`res.json()`. -/
def importFile (f : DriveFile) (s : NetState) : Except String Json × NetState :=
  match netFetch (importRequest f) s with
  | (.ok res, s) =>
      if res.ok then (resJson res, s)
      else
        match resJson res with
        | .ok err =>
            (.error (if jsTruthy (jsonField err "error") then jsToString (jsonField err "error")
                     else "Failed to import file"), s)
        | .error e => (.error e, s)
  | (.error e, s) => (.error e, s)

/-- `api.listFiles`: `GET /api/files`, returns `res.json()` with no status
check. -/
def listFiles (s : NetState) : Except String Json × NetState :=
  match netFetch ⟨"GET", API_BASE ++ "/files", [], none⟩ s with
  | (.ok res, s) => (resJson res, s)
  | (.error e, s) => (.error e, s)

/-- `api.searchFiles`: `GET /api/files/search?q=...`, returns `res.json()`
with no status check. -/
def searchFiles (query : String) (s : NetState) : Except String Json × NetState :=
  match netFetch ⟨"GET", API_BASE ++ "/files/search", [("q", query)], none⟩ s with
  | (.ok res, s) => (resJson res, s)
  | (.error e, s) => (.error e, s)

/-- `api.deleteFile`: `DELETE /api/files/:id`; throws a fixed message on
non-2xx, returns nothing otherwise. -/
def deleteFile (fileId : Int) (s : NetState) : Except String Unit × NetState :=
  match netFetch ⟨"DELETE", API_BASE ++ "/files/" ++ toString fileId, [], none⟩ s with
  | (.ok res, s) =>
      if res.ok then (.ok (), s) else (.error "Failed to delete file", s)
  | (.error e, s) => (.error e, s)

/-- `api.getFileUrl`: pure URL construction (no network call). -/
def getFileUrl (fileId : Int) : String :=
  API_BASE ++ "/files/" ++ toString fileId

/-! ## Formatting utilities (`src/lib/utils.ts`) -/

/-- The unit table of `formatFileSize`. -/
def sizeUnits : List String := ["B", "KB", "MB", "GB"]

/-- One iteration of the `while (size >= 1024 && unitIndex < units.length - 1)`
loop of `formatFileSize`; when the guard fails the pair is returned
unchanged, so the loop (at most three iterations, since the index strictly
increases up to 3) is three applications of this step. -/
def fsStep (p : Rat × Nat) : Rat × Nat :=
  if 1024 ≤ p.1 ∧ p.2 < 3 then (p.1 / 1024, p.2 + 1) else p

/-- `q.toFixed(1)` for a non-negative rational: round `q * 10` to the nearest
integer, ties away from zero, and print with one decimal place. -/
def toFixed1Nonneg (q : Rat) : String :=
  let t : Rat := q * 10
  let n : Nat := (if (1 : Rat) / 2 ≤ t - (t.floor : Rat) then t.floor + 1 else t.floor).toNat
  toString (n / 10) ++ "." ++ toString (n % 10)

/-- JavaScript `Number.prototype.toFixed(1)` on a rational. -/
def toFixed1 (q : Rat) : String :=
  if q < 0 then "-" ++ toFixed1Nonneg (-q) else toFixed1Nonneg q

/-- `formatFileSize(bytes)`: the string `Unknown size` on a falsy argument
(`null`/`undefined`/`NaN`, here `none`, or `0`), otherwise divide by 1024 up
to three times and print one decimal with the matching unit. -/
def formatFileSize (bytes : Option Int) : String :=
  match bytes with
  | none => "Unknown size"
  | some b =>
      if b = 0 then "Unknown size"
      else
        let p := fsStep (fsStep (fsStep ((b : Rat), 0)))
        toFixed1 p.1 ++ " " ++ sizeUnits.getD p.2 ""

/-! ## User-visible effects of the UI handlers -/

/-- Effects a handler can perform besides state updates and network calls. -/
inductive Effect where
  | consoleError : String → Effect
  | alert : String → Effect
  | redirect : String → Effect
  | onDeleteCb : Effect
  | onImportCb : Effect
  | onCloseCb : Effect
deriving DecidableEq

/-! ## Root application component (`src/App.tsx`) -/

/-- The `useState` fields of `App`.  `authenticated` starts as `null`
(`none`); `files` holds whatever value was destructured from the list
response (typed `DataroomFile[]`, at runtime a JSON value). -/
structure AppState where
  authenticated : Option Bool
  files : Json
  loading : Bool
  searchQuery : String
  showPicker : Bool

/-- `fetchFiles` in `App`: set loading, call `searchFiles` when the query is
truthy (non-empty) else `listFiles`, store the destructured `files` field;
any rejection is caught and logged with `console.error`; `finally` clears
loading.  (The two-argument `console.error` of the source is modelled as
one concatenated message.) -/
def appFetchFiles (st : AppState) (s : NetState) : AppState × List Effect × NetState :=
  let st1 := { st with loading := true }
  match (if st1.searchQuery ≠ "" then searchFiles st1.searchQuery s else listFiles s) with
  | (.ok j, s) => ({ st1 with files := jsonField j "files", loading := false }, [], s)
  | (.error e, s) =>
      ({ st1 with loading := false }, [.consoleError ("Failed to fetch files: " ++ e)], s)

/-- `checkAuth`: query the auth status; on success store the `authenticated`
field (used only through its truthiness) and fetch files when authenticated;
any rejection is caught and treated as unauthenticated, with no console
output and no alert. -/
def checkAuth (st : AppState) (s : NetState) : AppState × List Effect × NetState :=
  match getAuthStatus s with
  | (.ok j, s) =>
      let auth := jsTruthy (jsonField j "authenticated")
      let st1 := { st with authenticated := some auth }
      if auth then appFetchFiles st1 s
      else ({ st1 with loading := false }, [], s)
  | (.error _, s) => ({ st with authenticated := some false, loading := false }, [], s)

/-- `handleLogin`: fetch the OAuth URL and redirect to it; a rejection is
caught and surfaced with a blocking alert. -/
def handleLogin (st : AppState) (s : NetState) : AppState × List Effect × NetState :=
  match getAuthUrl s with
  | (.ok j, s) => (st, [.redirect (jsToString (jsonField j "auth_url"))], s)
  | (.error _, s) => (st, [.alert "Failed to initiate login. Please try again."], s)

/-- `handleLogout`: `await api.logout()` with no `try`/`catch` — a rejected
logout call escapes the handler (`Except.error`); after a resolved call
(whatever the response status) the state is reset to unauthenticated with an
empty file list. -/
def handleLogout (st : AppState) (s : NetState) :
    Except String (AppState × List Effect) × NetState :=
  match logout s with
  | (.ok _, s) => (.ok ({ st with authenticated := some false, files := .arr [] }, []), s)
  | (.error e, s) => (.error e, s)

/-! ## File card component (`src/components/FileCard.tsx`) -/

/-- `handleDelete` of `FileCard`: ask for confirmation (its result is the
`confirmResult` argument); when confirmed, call `api.deleteFile` and invoke
the parent `onDelete` callback on success; a rejection is caught and
surfaced with a blocking alert. -/
def handleDelete (file : DataroomFile) (confirmResult : Bool) (s : NetState) :
    List Effect × NetState :=
  if confirmResult then
    match deleteFile file.id s with
    | (.ok _, s) => ([.onDeleteCb], s)
    | (.error _, s) => ([.alert "Failed to delete file. Please try again."], s)
  else ([], s)

/-! ## Drive file picker (`src/components/DriveFilePicker.tsx`)

The picker calls `api.listDriveFiles`, whose declared result type is
`DriveListResponse`; its handlers are modelled against a typed server
oracle `server : Option String → Option String → Except String
DriveListResponse` mapping the `(pageToken?, query?)` arguments of a fetch
to the decoded response (or a rejection).  Each handler additionally
returns the list of `(pageToken?, query?)` argument pairs it passed to
`fetchFiles`, so that the claims about which token a navigation fetches
with are directly statable. -/

/-- The `(pageToken?, query?)` argument pair of one picker `fetchFiles`
call. -/
structure DriveRequest where
  pageToken : Option String
  query : Option String
deriving DecidableEq

/-- The `useState` fields of `DriveFilePicker`, in declaration order. -/
structure PickerState where
  files : List DriveFile
  loading : Bool
  searchQuery : String
  selectedFiles : List String
  importing : Bool
  nextPageToken : Option String
  prevTokens : List String
deriving DecidableEq

/-- `fetchFiles` in the picker: set loading, call the Drive list endpoint,
store `result.files || []` and `result.nextPageToken`; a rejection is caught
and logged with `console.error`; `finally` clears loading. -/
def pickerFetchFiles (pageToken? query? : Option String)
    (server : Option String → Option String → Except String DriveListResponse)
    (st : PickerState) : PickerState × List DriveRequest × List Effect :=
  let st1 := { st with loading := true }
  match server pageToken? query? with
  | .ok result =>
      ({ st1 with files := result.files, nextPageToken := result.nextPageToken,
                  loading := false }, [⟨pageToken?, query?⟩], [])
  | .error e =>
      ({ st1 with loading := false }, [⟨pageToken?, query?⟩],
       [.consoleError ("Failed to fetch drive files: " ++ e)])

/-- `handleSearch` in the picker: reset the pagination history, then fetch
with no page token and the current search text as the query. -/
def pickerHandleSearch
    (server : Option String → Option String → Except String DriveListResponse)
    (st : PickerState) : PickerState × List DriveRequest × List Effect :=
  pickerFetchFiles none (some st.searchQuery) server { st with prevTokens := [] }

/-- `handleNextPage`: when `nextPageToken` is truthy (present and non-empty),
push the empty-string placeholder onto `prevTokens` and fetch with the
server-provided next token; otherwise do nothing. -/
def handleNextPage
    (server : Option String → Option String → Except String DriveListResponse)
    (st : PickerState) : PickerState × List DriveRequest × List Effect :=
  match st.nextPageToken with
  | some tok =>
      if tok = "" then (st, [], [])
      else
        pickerFetchFiles (some tok) (some st.searchQuery) server
          { st with prevTokens := st.prevTokens ++ [""] }
  | none => (st, [], [])

/-- `token || undefined`: an empty-string popped token becomes `undefined`. -/
def jsOrUndefined : Option String → Option String
  | some t => if t = "" then none else some t
  | none => none

/-- `handlePrevPage`: when the history stack is non-empty, pop its last
entry and refetch with the popped token (`undefined` when the popped entry
is the empty-string first-page placeholder); otherwise do nothing. -/
def handlePrevPage
    (server : Option String → Option String → Except String DriveListResponse)
    (st : PickerState) : PickerState × List DriveRequest × List Effect :=
  if st.prevTokens.length > 0 then
    pickerFetchFiles (jsOrUndefined st.prevTokens.getLast?) (some st.searchQuery) server
      { st with prevTokens := st.prevTokens.dropLast }
  else (st, [], [])

/-- `toggleSelect`: remove the id from the selection set when present,
insert it otherwise. -/
def toggleSelect (fileId : String) (st : PickerState) : PickerState :=
  { st with selectedFiles :=
      if st.selectedFiles.contains fileId then st.selectedFiles.filter (· ≠ fileId)
      else st.selectedFiles ++ [fileId] }

/-- Whether an import call resolved. -/
def importOk (r : Except String Unit) : Bool :=
  match r with
  | .ok _ => true
  | .error _ => false

/-- The `for (const file of filesToImport)` loop of `handleImport`: each file
is awaited in order; a rejection is caught, counted, and logged, and the
loop continues with the next file.  Returns (successCount, errorCount,
console effects in order). -/
def importLoop (imp : DriveFile → Except String Unit) :
    List DriveFile → Nat × Nat × List Effect
  | [] => (0, 0, [])
  | f :: fs =>
      match imp f with
      | .ok _ =>
          let r := importLoop imp fs
          (r.1 + 1, r.2.1, r.2.2)
      | .error e =>
          let r := importLoop imp fs
          (r.1, r.2.1 + 1, .consoleError ("Failed to import " ++ f.name ++ ": " ++ e) :: r.2.2)

/-- The aggregate alert text of `handleImport`. -/
def importAlertMsg (successCount errorCount : Nat) : String :=
  "Imported " ++ toString successCount ++ " file(s). " ++ toString errorCount ++
    " file(s) failed or already exist."

/-- Result of one run of `handleImport`: which files were attempted (in
order), the two counters, and the effects performed after the loop ends. -/
structure ImportRun where
  attempted : List DriveFile
  successCount : Nat
  errorCount : Nat
  effects : List Effect

/-- The batch computed at the top of `handleImport`:
`files.filter((f) => selectedFiles.has(f.id))`. -/
def filesToImport (st : PickerState) : List DriveFile :=
  st.files.filter (fun f => st.selectedFiles.contains f.id)

/-- `handleImport`: filter the current page files down to the selected ones;
return immediately when none; otherwise import them sequentially, show the
aggregate alert when any import failed, then invoke the `onImport` and
`onClose` callbacks.  `imp` gives each import call outcome. -/
def handleImport (imp : DriveFile → Except String Unit) (st : PickerState) : ImportRun :=
  if (filesToImport st).length = 0 then ⟨[], 0, 0, []⟩
  else
    let r := importLoop imp (filesToImport st)
    ⟨filesToImport st, r.1, r.2.1,
      r.2.2 ++ (if r.2.1 > 0 then [.alert (importAlertMsg r.1 r.2.1)] else []) ++
        [.onImportCb, .onCloseCb]⟩

/-- JavaScript `s.startsWith(pre)`, over the character lists of the two
strings. -/
def jsStartsWith (s pre : String) : Bool :=
  pre.toList.isPrefixOf s.toList

/-- `isGoogleDoc`: Google-native document MIME types,
a `startsWith` test against the Google-apps MIME type stem. -/
def isGoogleDoc (mimeType : String) : Bool :=
  jsStartsWith mimeType "application/vnd.google-apps."

/-- `isFolder`: the Drive folder MIME type. -/
def isFolder (mimeType : String) : Bool :=
  mimeType == "application/vnd.google-apps.folder"

/-- The argument of `formatFileSize` in the picker row:
`file.size ? parseInt(file.size) : null`. -/
def driveSizeBytes (f : DriveFile) : Option Int :=
  match f.size with
  | some sz => if sz = "" then none else parseIntJs sz
  | none => none

/-- The secondary line of a rendered picker row: `Google Doc` for
Google-native documents, a formatted byte size otherwise. -/
def sizeLabel (f : DriveFile) : String :=
  if isGoogleDoc f.mimeType then "Google Doc" else formatFileSize (driveSizeBytes f)

/-- The rendered picker list: the current files with folders filtered out,
each paired with its displayed size label. -/
def renderedEntries (files : List DriveFile) : List (DriveFile × String) :=
  (files.filter (fun f => !isFolder f.mimeType)).map (fun f => (f, sizeLabel f))

/-! ## Sample data for concrete evaluations -/

/-- A plain Drive file on page 1 of the sample listing. -/
def sampleFileA : DriveFile := ⟨"a", "A.txt", "text/plain", some "100", none, none, none⟩

/-- A plain Drive file on page 2 of the sample listing. -/
def sampleFileB : DriveFile := ⟨"b", "B.txt", "text/plain", some "2048", none, none, none⟩

/-- A Google-native document. -/
def sampleGoogleDoc : DriveFile :=
  ⟨"g", "Budget", "application/vnd.google-apps.document", none, none, none, none⟩

/-- A Drive folder entry. -/
def sampleFolder : DriveFile :=
  ⟨"d", "Reports", "application/vnd.google-apps.folder", none, none, none, none⟩

/-- A three-page Drive listing: the first page is fetched with no token and
announces next token `T1`; the page fetched with `T1` announces `T2`; the
page fetched with `T2` is last. -/
def sampleServer : Option String → Option String → Except String DriveListResponse :=
  fun pageToken? _query? =>
    match pageToken? with
    | none => .ok ⟨[sampleFileA], some "T1"⟩
    | some t =>
        if t = "T1" then .ok ⟨[sampleFileB], some "T2"⟩
        else if t = "T2" then .ok ⟨[sampleGoogleDoc], none⟩
        else .error "bad token"

/-- The picker state right after the mount fetch of the sample listing:
page 1 displayed, next token `T1`, empty history stack. -/
def samplePickerStart : PickerState := ⟨[sampleFileA], false, "", [], false, some "T1", []⟩

/-- A picker state with both page files selected plus a stale id `zz`
selected on an earlier page and no longer displayed. -/
def samplePickerSelected : PickerState :=
  ⟨[sampleFileA, sampleFileB], false, "", ["a", "b", "zz"], false, none, []⟩

/-- Import outcomes where file `a` imports and everything else fails. -/
def sampleImportOutcome : DriveFile → Except String Unit :=
  fun f => if f.id = "a" then .ok () else .error "File already imported"

/-- An app state as mounted (auth unknown, empty list). -/
def sampleAppState : AppState := ⟨none, .arr [], true, "", false⟩

/-- An imported file with database id 42. -/
def sampleDataroomFile : DataroomFile := ⟨42, "A.txt", some "text/plain", some 100, "a", "2025-12-24"⟩

/-! ## Helper lemmas -/

/-- The two counters of the import loop count the resolved and the
rejected import calls among the attempted files. -/
theorem importLoop_counts (imp : DriveFile → Except String Unit) (l : List DriveFile) :
    (importLoop imp l).1 = (l.filter (fun f => importOk (imp f))).length ∧
    (importLoop imp l).2.1 = (l.filter (fun f => !importOk (imp f))).length := by
  induction l with
  | nil => simp [importLoop]
  | cons f fs ih =>
      cases h : imp f <;>
        simp [importLoop, h, importOk, List.filter_cons, ih.1, ih.2]

/-- Every attempted file is counted exactly once: the counters sum to the
number of attempted files. -/
theorem importLoop_total (imp : DriveFile → Except String Unit) (l : List DriveFile) :
    (importLoop imp l).1 + (importLoop imp l).2.1 = l.length := by
  induction l with
  | nil => simp [importLoop]
  | cons f fs ih => cases h : imp f <;> simp [importLoop, h] <;> omega

/-- A rejected import of an attempted file leaves its console-error line in
the loop effects. -/
theorem importLoop_mem_error (imp : DriveFile → Except String Unit) (l : List DriveFile)
    (f : DriveFile) (e : String) (hf : f ∈ l) (he : imp f = .error e) :
    Effect.consoleError ("Failed to import " ++ f.name ++ ": " ++ e) ∈ (importLoop imp l).2.2 := by
  induction l with
  | nil => cases hf
  | cons g gs ih =>
      rcases List.mem_cons.mp hf with hfg | hfs
      · subst hfg
        simp [importLoop, he]
      · cases h : imp g <;> simp [importLoop, h] <;> [exact Or.inr (ih hfs); exact ih hfs]

/-- The picker fetch never touches the selection set. -/
theorem pickerFetchFiles_selectedFiles (pageToken? query? : Option String)
    (server : Option String → Option String → Except String DriveListResponse)
    (st : PickerState) :
    (pickerFetchFiles pageToken? query? server st).1.selectedFiles = st.selectedFiles := by
  unfold pickerFetchFiles
  cases server pageToken? query? <;> rfl

/-- The picker fetch never touches the search text. -/
theorem pickerFetchFiles_searchQuery (pageToken? query? : Option String)
    (server : Option String → Option String → Except String DriveListResponse)
    (st : PickerState) :
    (pickerFetchFiles pageToken? query? server st).1.searchQuery = st.searchQuery := by
  unfold pickerFetchFiles
  cases server pageToken? query? <;> rfl

/-- The picker fetch never touches the pagination history. -/
theorem pickerFetchFiles_prevTokens (pageToken? query? : Option String)
    (server : Option String → Option String → Except String DriveListResponse)
    (st : PickerState) :
    (pickerFetchFiles pageToken? query? server st).1.prevTokens = st.prevTokens := by
  unfold pickerFetchFiles
  cases server pageToken? query? <;> rfl

/-- The picker fetch records exactly its one `(pageToken?, query?)` call. -/
theorem pickerFetchFiles_requests (pageToken? query? : Option String)
    (server : Option String → Option String → Except String DriveListResponse)
    (st : PickerState) :
    (pickerFetchFiles pageToken? query? server st).2.1 = [⟨pageToken?, query?⟩] := by
  unfold pickerFetchFiles
  cases server pageToken? query? <;> rfl

/-- The attempted batch of `handleImport` is always the selected part of the
currently displayed page. -/
theorem handleImport_attempted (imp : DriveFile → Except String Unit) (st : PickerState) :
    (handleImport imp st).attempted = filesToImport st := by
  unfold handleImport
  by_cases h : (filesToImport st).length = 0
  · simp [h, List.length_eq_zero.mp h]
  · simp [h]

/-- Shape of the effect list of a non-empty import batch. -/
theorem handleImport_effects (imp : DriveFile → Except String Unit) (st : PickerState)
    (h : ¬(filesToImport st).length = 0) :
    (handleImport imp st).effects
      = (importLoop imp (filesToImport st)).2.2
        ++ (if (importLoop imp (filesToImport st)).2.1 > 0
            then [.alert (importAlertMsg (importLoop imp (filesToImport st)).1
                    (importLoop imp (filesToImport st)).2.1)]
            else [])
        ++ [.onImportCb, .onCloseCb] := by
  simp [handleImport, h]

/-! ## Claim theorems -/

/-- C4: the batch import attempts every file of the selected part of the
current page (so one failure does not abort the batch), the success and
error counters partition the attempted files, any failure leads to a single
aggregate alert, and with two attempted files of which exactly one failed
the alert text is exactly
`Imported 1 file(s). 1 file(s) failed or already exist.`. -/
theorem import_batch_sequential_aggregate (imp : DriveFile → Except String Unit)
    (st : PickerState) :
    (handleImport imp st).attempted = filesToImport st
    ∧ (handleImport imp st).successCount
        = ((filesToImport st).filter (fun f => importOk (imp f))).length
    ∧ (handleImport imp st).errorCount
        = ((filesToImport st).filter (fun f => !importOk (imp f))).length
    ∧ (handleImport imp st).successCount + (handleImport imp st).errorCount
        = (filesToImport st).length
    ∧ ((handleImport imp st).errorCount > 0 →
        Effect.alert (importAlertMsg (handleImport imp st).successCount
          (handleImport imp st).errorCount) ∈ (handleImport imp st).effects)
    ∧ ((filesToImport st).length = 2 → (handleImport imp st).errorCount = 1 →
        Effect.alert "Imported 1 file(s). 1 file(s) failed or already exist."
          ∈ (handleImport imp st).effects) := by
  by_cases h : (filesToImport st).length = 0
  · have hnil : filesToImport st = [] := List.length_eq_zero.mp h
    refine ⟨?_, ?_, ?_, ?_, ?_, ?_⟩ <;> simp [handleImport, h, hnil]
  · refine ⟨?_, ?_, ?_, ?_, ?_, ?_⟩
    · simp [handleImport, h]
    · simp [handleImport, h, (importLoop_counts imp (filesToImport st)).1]
    · simp [handleImport, h, (importLoop_counts imp (filesToImport st)).2]
    · simpa [handleImport, h] using importLoop_total imp (filesToImport st)
    · intro hpos
      have hpos' : 0 < (importLoop imp (filesToImport st)).2.1 := by
        simpa [handleImport, h] using hpos
      simp [handleImport, h, hpos']
    · intro h2 he1
      have he1' : (importLoop imp (filesToImport st)).2.1 = 1 := by
        simpa [handleImport, h] using he1
      have hs1 : (importLoop imp (filesToImport st)).1 = 1 := by
        have ht := importLoop_total imp (filesToImport st)
        rw [h2] at ht
        omega
      have hmsg : importAlertMsg 1 1
          = "Imported 1 file(s). 1 file(s) failed or already exist." := by rfl
      simp [handleImport, h, he1', hs1, hmsg]

/-- Witness for C4: in the sample state, two displayed files are selected,
file `b` fails to import, and the aggregate alert carries the exact text. -/
theorem import_batch_sequential_aggregate_witness :
    Effect.alert "Imported 1 file(s). 1 file(s) failed or already exist."
      ∈ (handleImport sampleImportOutcome samplePickerSelected).effects :=
  (import_batch_sequential_aggregate sampleImportOutcome samplePickerSelected).2.2.2.2.2
    (by decide) (by decide)

/-- C5: every file attempted by the batch import is displayed on the current
page and selected; a selected id absent from the current page is attempted
under no file and contributes to neither counter; and pagination and search
never clear the selection set. -/
theorem import_batch_only_current_page (imp : DriveFile → Except String Unit)
    (st : PickerState) (idv : String)
    (server : Option String → Option String → Except String DriveListResponse) :
    (∀ f, f ∈ (handleImport imp st).attempted →
        f ∈ st.files ∧ st.selectedFiles.contains f.id = true)
    ∧ (st.selectedFiles.contains idv = true → (∀ g, g ∈ st.files → g.id ≠ idv) →
        ∀ f, f ∈ (handleImport imp st).attempted → f.id ≠ idv)
    ∧ (handleImport imp st).successCount + (handleImport imp st).errorCount
        = (handleImport imp st).attempted.length
    ∧ (handleNextPage server st).1.selectedFiles = st.selectedFiles
    ∧ (handlePrevPage server st).1.selectedFiles = st.selectedFiles
    ∧ (pickerHandleSearch server st).1.selectedFiles = st.selectedFiles := by
  have hmem : ∀ f, f ∈ (handleImport imp st).attempted →
      f ∈ st.files ∧ st.selectedFiles.contains f.id = true := by
    intro f hf
    rw [handleImport_attempted] at hf
    exact List.mem_filter.mp hf
  refine ⟨hmem, ?_, ?_, ?_, ?_, ?_⟩
  · intro _hsel hnotin f hf heq
    exact hnotin f (hmem f hf).1 heq
  · rw [handleImport_attempted]
    by_cases h : (filesToImport st).length = 0
    · simp [handleImport, h, List.length_eq_zero.mp h]
    · simpa [handleImport, h] using importLoop_total imp (filesToImport st)
  · cases htok : st.nextPageToken with
    | none => simp [handleNextPage, htok]
    | some tok =>
        by_cases he : tok = "" <;>
          simp [handleNextPage, htok, he, pickerFetchFiles_selectedFiles]
  · by_cases hl : st.prevTokens.length > 0 <;>
      simp [handlePrevPage, hl, pickerFetchFiles_selectedFiles]
  · simp [pickerHandleSearch, pickerFetchFiles_selectedFiles]

/-- Witness for C5: the stale selected id `zz` is not the id of any attempted
file in the sample state. -/
theorem import_batch_only_current_page_witness : sampleFileA.id ≠ "zz" :=
  (import_batch_only_current_page sampleImportOutcome samplePickerSelected "zz"
      sampleServer).2.1 (by decide) (by decide) sampleFileA (by decide)

/-- C6: from a state with an empty pagination history and a (non-empty)
server-provided next token, one next navigation followed by one previous
navigation refetches with no page token — the first page — whatever the
token was. -/
theorem prev_after_one_next_uses_no_token
    (server : Option String → Option String → Except String DriveListResponse)
    (st : PickerState) (t : String)
    (h0 : st.prevTokens = []) (h1 : st.nextPageToken = some t) (h2 : t ≠ "") :
    (handlePrevPage server (handleNextPage server st).1).2.1
      = [⟨none, some st.searchQuery⟩]
    ∧ (handleNextPage server st).1.prevTokens = [""] := by
  have hnext : (handleNextPage server st).1
      = (pickerFetchFiles (some t) (some st.searchQuery) server
          { st with prevTokens := st.prevTokens ++ [""] }).1 := by
    simp [handleNextPage, h1, h2]
  have hpt : (handleNextPage server st).1.prevTokens = [""] := by
    rw [hnext, pickerFetchFiles_prevTokens]
    simp [h0]
  have hsq : (handleNextPage server st).1.searchQuery = st.searchQuery := by
    rw [hnext, pickerFetchFiles_searchQuery]
  refine ⟨?_, hpt⟩
  simp [handlePrevPage, hpt, hsq, jsOrUndefined, pickerFetchFiles_requests]

/-- Witness for C6: on the sample listing, Next (token `T1`) then Previous
refetches with no page token. -/
theorem prev_after_one_next_uses_no_token_witness :
    (handlePrevPage sampleServer (handleNextPage sampleServer samplePickerStart).1).2.1
      = [⟨none, some ""⟩] :=
  (prev_after_one_next_uses_no_token sampleServer samplePickerStart "T1" rfl rfl
    (by decide)).1

/-- C8: submitting a search resets the pagination history stack to empty and
issues the fetch with no page token and the current search text as the
query. -/
theorem search_resets_pagination
    (server : Option String → Option String → Except String DriveListResponse)
    (st : PickerState) :
    (pickerHandleSearch server st).1.prevTokens = []
    ∧ (pickerHandleSearch server st).2.1 = [⟨none, some st.searchQuery⟩] := by
  constructor
  · rw [pickerHandleSearch, pickerFetchFiles_prevTokens]
  · rw [pickerHandleSearch, pickerFetchFiles_requests]

/-- C9: the rendered picker list drops every entry whose MIME type is the
Drive folder MIME type; every remaining Google-native entry is labeled
`Google Doc`, every other remaining entry is labeled with the formatted
byte size; and every displayed non-folder file is rendered. -/
theorem rendered_list_folders_and_gdocs (files : List DriveFile) (f : DriveFile)
    (lbl : String) :
    (f.mimeType = "application/vnd.google-apps.folder" →
        (f, lbl) ∉ renderedEntries files)
    ∧ ((f, lbl) ∈ renderedEntries files → isGoogleDoc f.mimeType = true →
        lbl = "Google Doc")
    ∧ ((f, lbl) ∈ renderedEntries files → isGoogleDoc f.mimeType = false →
        lbl = formatFileSize (driveSizeBytes f))
    ∧ (f ∈ files → isFolder f.mimeType = false →
        (f, sizeLabel f) ∈ renderedEntries files) := by
  have hmem : ∀ (g : DriveFile) (l : String),
      (g, l) ∈ renderedEntries files ↔
        (g ∈ files ∧ isFolder g.mimeType = false) ∧ l = sizeLabel g := by
    intro g l
    constructor
    · intro hin
      rcases List.mem_map.mp hin with ⟨a, ha, heq⟩
      cases heq
      rcases List.mem_filter.mp ha with ⟨haf, hpa⟩
      exact ⟨⟨haf, by simpa [Bool.not_eq_true'] using hpa⟩, rfl⟩
    · rintro ⟨⟨hf, hnf⟩, rfl⟩
      exact List.mem_map.mpr ⟨g, List.mem_filter.mpr ⟨hf, by simp [hnf]⟩, rfl⟩
  refine ⟨?_, ?_, ?_, ?_⟩
  · intro hmime hin
    have := ((hmem f lbl).mp hin).1.2
    rw [hmime] at this
    simp [isFolder] at this
  · intro hin hgd
    have := ((hmem f lbl).mp hin).2
    rw [this]
    simp [sizeLabel, hgd]
  · intro hin hgd
    have := ((hmem f lbl).mp hin).2
    rw [this]
    simp [sizeLabel, hgd]
  · intro hf hnf
    exact (hmem f (sizeLabel f)).mpr ⟨⟨hf, hnf⟩, rfl⟩

/-- Witness for C9: in a two-entry listing the folder is dropped and the
Google-native document is rendered (its label evaluates to `Google Doc`). -/
theorem rendered_list_folders_and_gdocs_witness :
    (sampleFolder, "x") ∉ renderedEntries [sampleFolder, sampleGoogleDoc]
    ∧ (sampleGoogleDoc, sizeLabel sampleGoogleDoc)
        ∈ renderedEntries [sampleFolder, sampleGoogleDoc]
    ∧ sizeLabel sampleGoogleDoc = "Google Doc" := by
  refine ⟨?_, ?_, rfl⟩
  · exact (rendered_list_folders_and_gdocs [sampleFolder, sampleGoogleDoc]
      sampleFolder "x").1 rfl
  · exact (rendered_list_folders_and_gdocs [sampleFolder, sampleGoogleDoc]
      sampleGoogleDoc "y").2.2.2 (by decide) (by decide)

/-- C1 (the code evaluated at the failing input): on the sample listing,
after two consecutive next navigations the history stack holds two
first-page placeholders — `handleNextPage` pushed the empty string, not the
token `T1` that fetched the then-displayed page — so the following previous
navigation refetches with no page token (not with `T1`) and lands back on
the first page instead of the page fetched with `T1`. -/
theorem next_pushes_placeholder_not_current_token :
    (handleNextPage sampleServer
        (handleNextPage sampleServer samplePickerStart).1).1.prevTokens = ["", ""]
    ∧ (handlePrevPage sampleServer (handleNextPage sampleServer
        (handleNextPage sampleServer samplePickerStart).1).1).2.1 = [⟨none, some ""⟩]
    ∧ (handlePrevPage sampleServer (handleNextPage sampleServer
        (handleNextPage sampleServer samplePickerStart).1).1).2.1 ≠ [⟨some "T1", some ""⟩]
    ∧ (handlePrevPage sampleServer (handleNextPage sampleServer
        (handleNextPage sampleServer samplePickerStart).1).1).1.files = [sampleFileA] :=
  ⟨rfl, rfl, by decide, rfl⟩

/-- C7: logging out issues the logout request and then, for every response
(any status, any body, with no success check), resets the local state to
unauthenticated with an empty file list. -/
theorem logout_resets_state (st : AppState) (r : HttpResponse)
    (rest : List HttpResponse) (log : List Request) :
    handleLogout st ⟨r :: rest, log⟩
      = (.ok ({ st with authenticated := some false, files := .arr [] }, []),
         ⟨rest, log ++ [⟨"POST", API_BASE ++ "/auth/logout", [], none⟩]⟩) := rfl

/-- C10: a confirmed delete issues exactly one DELETE request to
`/api/files/:id`, and the parent refresh callback is invoked exactly when
the response status is 2xx; a non-2xx response makes the call throw, the
callback is not invoked, and the caught failure is surfaced with an alert. -/
theorem delete_requests_and_refreshes_on_2xx (file : DataroomFile) (r : HttpResponse)
    (rest : List HttpResponse) (log : List Request) :
    (handleDelete file true ⟨r :: rest, log⟩).2.log
      = log ++ [⟨"DELETE", API_BASE ++ "/files/" ++ toString file.id, [], none⟩]
    ∧ ((handleDelete file true ⟨r :: rest, log⟩).1 = [.onDeleteCb] ↔ r.ok = true)
    ∧ (r.ok = false →
        (handleDelete file true ⟨r :: rest, log⟩).1
          = [.alert "Failed to delete file. Please try again."]) := by
  cases hok : r.ok <;> simp [handleDelete, deleteFile, netFetch, hok]

/-- Witness for C10: deleting the sample file with id 42 requests
`DELETE /api/files/42`; a 200 response invokes the refresh callback, a 404
response shows the alert instead. -/
theorem delete_requests_and_refreshes_on_2xx_witness :
    (handleDelete sampleDataroomFile true ⟨[⟨200, some (Json.obj [])⟩], []⟩).2.log
      = [⟨"DELETE", "/api/files/42", [], none⟩]
    ∧ (handleDelete sampleDataroomFile true ⟨[⟨200, some (Json.obj [])⟩], []⟩).1
      = [Effect.onDeleteCb]
    ∧ (handleDelete sampleDataroomFile true ⟨[⟨404, none⟩], []⟩).1
      = [Effect.alert "Failed to delete file. Please try again."] := by
  refine ⟨?_, ?_, ?_⟩
  · exact (delete_requests_and_refreshes_on_2xx sampleDataroomFile
      ⟨200, some (Json.obj [])⟩ [] []).1
  · exact (delete_requests_and_refreshes_on_2xx sampleDataroomFile
      ⟨200, some (Json.obj [])⟩ [] []).2.1.mpr rfl
  · exact (delete_requests_and_refreshes_on_2xx sampleDataroomFile
      ⟨404, none⟩ [] []).2.2 rfl

/-- C2 counterexample: `getAuthStatus` does not throw on a non-2xx response
(it returns the parsed body of a 500 response unchanged), and the error
`importFile` throws on non-2xx is not a fixed message (it carries the
server-provided error field). -/
theorem api_client_fixed_error_counterexample :
    (getAuthStatus ⟨[⟨500, some (Json.obj [("authenticated", Json.bool false)])⟩], []⟩).1
      = .ok (Json.obj [("authenticated", Json.bool false)])
    ∧ (importFile sampleFileA
        ⟨[⟨409, some (Json.obj [("error", Json.str "File already imported")])⟩], []⟩).1
      = .error "File already imported" :=
  ⟨rfl, rfl⟩

/-- C2 (amended): each API-client function performs exactly one network call
per invocation, consuming one scripted response and logging one request;
`listDriveFiles` and `deleteFile` throw a fixed generic message on non-2xx
and return the parsed body (or nothing) on 2xx; `importFile` throws on
non-2xx with the response error field as message when present and truthy,
falling back to a fixed message; `getAuthStatus`, `getAuthUrl`, `logout`,
`listFiles` and `searchFiles` never inspect the status and return the
parsed body (`logout` ignores the body entirely) for any status. -/
theorem api_client_one_call_and_statuses (r : HttpResponse) (rest : List HttpResponse)
    (log : List Request) :
    getAuthStatus ⟨r :: rest, log⟩
      = (resJson r, ⟨rest, log ++ [⟨"GET", API_BASE ++ "/auth/status", [], none⟩]⟩)
    ∧ getAuthUrl ⟨r :: rest, log⟩
      = (resJson r, ⟨rest, log ++ [⟨"GET", API_BASE ++ "/auth/login", [], none⟩]⟩)
    ∧ logout ⟨r :: rest, log⟩
      = (.ok (), ⟨rest, log ++ [⟨"POST", API_BASE ++ "/auth/logout", [], none⟩]⟩)
    ∧ (∀ pt q : Option String, listDriveFiles pt q ⟨r :: rest, log⟩
      = ((if r.ok then resJson r else .error "Failed to fetch drive files"),
         ⟨rest, log ++ [⟨"GET", API_BASE ++ "/drive/files", driveParams pt q, none⟩]⟩))
    ∧ (∀ f : DriveFile,
        (importFile f ⟨r :: rest, log⟩).2 = ⟨rest, log ++ [importRequest f]⟩
        ∧ (r.ok = true → (importFile f ⟨r :: rest, log⟩).1 = resJson r)
        ∧ (r.ok = false → (importFile f ⟨r :: rest, log⟩).1
            = match r.body with
              | none => .error "SyntaxError: invalid JSON"
              | some err => .error (if jsTruthy (jsonField err "error")
                    then jsToString (jsonField err "error")
                    else "Failed to import file")))
    ∧ listFiles ⟨r :: rest, log⟩
      = (resJson r, ⟨rest, log ++ [⟨"GET", API_BASE ++ "/files", [], none⟩]⟩)
    ∧ (∀ q : String, searchFiles q ⟨r :: rest, log⟩
      = (resJson r, ⟨rest, log ++ [⟨"GET", API_BASE ++ "/files/search", [("q", q)], none⟩]⟩))
    ∧ (∀ fileId : Int, deleteFile fileId ⟨r :: rest, log⟩
      = ((if r.ok then .ok () else .error "Failed to delete file"),
         ⟨rest, log ++ [⟨"DELETE", API_BASE ++ "/files/" ++ toString fileId, [], none⟩]⟩)) := by
  refine ⟨rfl, rfl, rfl, ?_, ?_, rfl, fun q => rfl, ?_⟩
  · intro pt q
    cases hok : r.ok <;> simp [listDriveFiles, netFetch, hok]
  · intro f
    refine ⟨?_, ?_, ?_⟩
    · cases hok : r.ok
      · cases hb : r.body <;> simp [importFile, netFetch, hok, resJson, hb]
      · simp [importFile, netFetch, hok]
    · intro hok
      simp [importFile, netFetch, hok]
    · intro hok
      cases hb : r.body <;> simp [importFile, netFetch, hok, resJson, hb]
  · intro fileId
    cases hok : r.ok <;> simp [deleteFile, netFetch, hok]

/-- Witness for the amended C2: a 2xx import returns the parsed body, a
non-2xx Drive listing throws the fixed message. -/
theorem api_client_one_call_and_statuses_witness :
    (importFile sampleFileA ⟨[⟨200, some (Json.obj [])⟩], []⟩).1 = .ok (Json.obj [])
    ∧ (listDriveFiles none none ⟨[⟨500, none⟩], []⟩).1
        = .error "Failed to fetch drive files" := by
  constructor
  · exact ((api_client_one_call_and_statuses ⟨200, some (Json.obj [])⟩ [] []).2.2.2.2.1
      sampleFileA).2.1 rfl
  · have h := (api_client_one_call_and_statuses ⟨500, none⟩ [] []).2.2.2.1 none none
    rw [h]
    rfl

/-- C3 counterexample: a rejected logout call escapes `handleLogout`
uncaught, and a failing auth check, though caught, is surfaced by neither a
console log nor an alert. -/
theorem handler_rejection_counterexample :
    (handleLogout sampleAppState ⟨[], []⟩).1 = .error "NetworkError"
    ∧ (checkAuth sampleAppState ⟨[], []⟩).2.1 = [] :=
  ⟨rfl, rfl⟩

/-- C3 (amended): failing file fetches, logins, drive fetches, imports and
deletes are caught at the call site and surfaced via a console log or a
blocking alert; a failing auth check is caught but handled silently,
falling back to the unauthenticated state with no log and no alert; the
logout handler has no catch, so a rejected logout call propagates
uncaught. -/
theorem handler_failures_surfaced (st : AppState) (pst : PickerState)
    (file : DataroomFile) (f : DriveFile) (log : List Request) (e : String)
    (server : Option String → Option String → Except String DriveListResponse)
    (imp : DriveFile → Except String Unit) (pt q : Option String) :
    (appFetchFiles st ⟨[], log⟩).2.1 = [.consoleError "Failed to fetch files: NetworkError"]
    ∧ (handleLogin st ⟨[], log⟩).2.1 = [.alert "Failed to initiate login. Please try again."]
    ∧ (checkAuth st ⟨[], log⟩).1.authenticated = some false
    ∧ (checkAuth st ⟨[], log⟩).2.1 = []
    ∧ (server pt q = .error e →
        (pickerFetchFiles pt q server pst).2.2
          = [.consoleError ("Failed to fetch drive files: " ++ e)])
    ∧ (imp f = .error e → f ∈ filesToImport pst →
        Effect.consoleError ("Failed to import " ++ f.name ++ ": " ++ e)
          ∈ (handleImport imp pst).effects)
    ∧ (handleDelete file true ⟨[], log⟩).1
        = [.alert "Failed to delete file. Please try again."]
    ∧ (handleLogout st ⟨[], log⟩).1 = .error "NetworkError" := by
  refine ⟨?_, rfl, rfl, rfl, ?_, ?_, rfl, rfl⟩
  · by_cases hq : st.searchQuery = "" <;>
      simp [appFetchFiles, searchFiles, listFiles, netFetch, hq]
  · intro hs
    simp [pickerFetchFiles, hs]
  · intro himp hf
    have hne : ¬(filesToImport pst).length = 0 := by
      intro h0
      rw [List.length_eq_zero.mp h0] at hf
      cases hf
    rw [handleImport_effects imp pst hne]
    exact List.mem_append.mpr (Or.inl (List.mem_append.mpr
      (Or.inl (importLoop_mem_error imp (filesToImport pst) f e hf himp))))

/-- Witness for the amended C3: the failed import of file `b` in the sample
batch leaves its console-error line among the effects. -/
theorem handler_failures_surfaced_witness :
    Effect.consoleError "Failed to import B.txt: File already imported"
      ∈ (handleImport sampleImportOutcome samplePickerSelected).effects :=
  (handler_failures_surfaced sampleAppState samplePickerSelected sampleDataroomFile
      sampleFileB [] "File already imported" sampleServer sampleImportOutcome
      none none).2.2.2.2.2.1 rfl (by decide)

end Dataroom
